import Mathlib

/-!
Verification of the YAIN music-recommendation backend core
(`src/backend/services/memory_service.py`, `spotify_service.py`,
`ai_service.py` and the `/chat` pipeline of `src/backend/app.py`)
against its natural-language specification.

The Python code is shallowly embedded: strings are Lean `String`s
(manipulated as `List Char`), the handful of regular expressions the
code relies on are translated into specialised executable matchers with
Python `re.search` semantics (leftmost match, greedy / lazy quantifier
behaviour spelled out per pattern), floats are embedded as `ℚ`, and the
external collaborators (Spotify search, YouTube search, the generative
model) are oracle parameters.
-/

namespace Yain

/-! ### Python string primitives -/

/-- Python whitespace for `str.strip`, `str.split` and the regex class `\s`:
space, tab, newline, carriage return, vertical tab, form feed. -/
def pySpace (c : Char) : Bool :=
  c == ' ' || c == '\t' || c == '\n' || c == '\r' || c == '\x0b' || c == '\x0c'

/-- The quote characters handled by the song-string regexes: `'` and `"`. -/
def isQuote (c : Char) : Bool :=
  c == '\'' || c == '"'

/-- Python `str.lower` (per-character, ASCII-faithful). -/
def pyLower (l : List Char) : List Char :=
  l.map Char.toLower

/-- Python `str.strip()` (no argument): remove leading and trailing whitespace. -/
def pyStrip (l : List Char) : List Char :=
  ((l.dropWhile pySpace).reverse.dropWhile pySpace).reverse

/-- Python `str.split()` (no argument): split on whitespace runs, no empty parts. -/
def pySplit : List Char → List (List Char)
  | [] => []
  | c :: rest =>
    if pySpace c then pySplit rest
    else
      match pySplit rest with
      | [] => [[c]]
      | w :: ws =>
        match rest with
        | [] => [[c]]
        | r :: _ => if pySpace r then [c] :: w :: ws else (c :: w) :: ws

/-- Python substring test `small in big`. -/
def containsSub (big small : List Char) : Bool :=
  (List.range (big.length + 1)).any fun i => small.isPrefixOf (big.drop i)

/-- `re.sub(r'\s+', ' ', s)`: collapse each whitespace run to a single space. -/
def collapseWs : List Char → List Char :=
  go false
where
  go : Bool → List Char → List Char
  | _, [] => []
  | prevWs, c :: rest =>
    if pySpace c then
      if prevWs then go true rest else ' ' :: go true rest
    else c :: go false rest

/-- Python `str.title()`: a cased character starting a run is uppercased,
subsequent cased characters are lowercased (ASCII-faithful). -/
def pyTitle (l : List Char) : List Char :=
  go false l
where
  go : Bool → List Char → List Char
  | _, [] => []
  | prevAlpha, c :: rest =>
    if c.isAlpha then
      (if prevAlpha then c.toLower else c.toUpper) :: go true rest
    else c :: go false rest

/-! ### memory_service.py — song-string parsing

`extract_song_parts` runs `re.search` with two patterns
(`'Song' by Artist` then `Song by Artist`, `re.IGNORECASE`).  The two
patterns are embedded as specialised matchers with exact `re.search`
semantics, documented pattern by pattern. -/

/-- The separator required after the title by both patterns: literal
`' by '` (case-insensitive, from `re.IGNORECASE`) followed by at least one
character matchable by the greedy group `(.+)` (i.e. not a newline).
`byMarkerAt s k` says this separator sits at index `k`. -/
def byMarkerAt (s : List Char) (k : Nat) : Bool :=
  match s.drop k with
  | ' ' :: b :: y :: ' ' :: c :: _ =>
    b.toLower == 'b' && y.toLower == 'y' && c != '\n'
  | _ => false

/-- Value of the artist group `(.+)` when the separator starts at `k`:
the greedy run of non-newline characters from `k + 4`. -/
def artistGroupFrom (s : List Char) (k : Nat) : List Char :=
  (s.drop (k + 4)).takeWhile (· != '\n')

/-- Pattern `['\"]([^'\"]+)['\"] by (.+)` under `re.search`:
the start must be a quote; the title group `[^'\"]+` cannot contain a
quote, so the closing quote is forced to the next quote after the start;
it must enclose at least one character and be followed by the `' by '`
separator.  `re.search` takes the leftmost start that succeeds. -/
def quotedSongMatch (s : List Char) : Option (List Char × List Char) :=
  (List.range s.length).findSome? fun i =>
    if isQuote (s.getD i ' ') then
      match (List.range s.length).find? (fun j => decide (i < j) && isQuote (s.getD j ' ')) with
      | some j =>
        if i + 2 ≤ j && byMarkerAt s (j + 1) then
          some (((s.drop (i + 1)).take (j - i - 1)), artistGroupFrom s (j + 1))
        else none
      | none => none
    else none

/-- Pattern `([^'\"]+) by (.+)` under `re.search`: the title group is a
nonempty quote-free run; the group is greedy, so for the leftmost viable
start `i` the separator position `k` is the largest one reachable through
quote-free characters.  `pat2KEnd s i` returns that largest `k`. -/
def plainSongKEnd (s : List Char) (i : Nat) : Option Nat :=
  ((List.range (s.length + 1)).filter fun k =>
    decide (i + 1 ≤ k) && byMarkerAt s k &&
      ((List.range (k - i)).all fun t => !isQuote (s.getD (i + t) ' '))).getLast?

/-- Leftmost-start search for the plain `Song by Artist` pattern. -/
def plainSongMatch (s : List Char) : Option (List Char × List Char) :=
  (List.range s.length).findSome? fun i =>
    match plainSongKEnd s i with
    | some k => some (((s.drop i).take (k - i)), artistGroupFrom s k)
    | none => none

/-- `memory_service.extract_song_parts`: try the quoted pattern, then the
plain pattern; on a match return `(group1.strip().lower(), group2.strip().lower())`;
otherwise return `(song.lower(), "")`. -/
def extract_song_parts (song : String) : String × String :=
  let s := song.toList
  match quotedSongMatch s with
  | some (t, a) => (⟨pyLower (pyStrip t)⟩, ⟨pyLower (pyStrip a)⟩)
  | none =>
    match plainSongMatch s with
    | some (t, a) => (⟨pyLower (pyStrip t)⟩, ⟨pyLower (pyStrip a)⟩)
    | none => (⟨pyLower s⟩, "")

/-- `memory_service.normalize_song_title`: lowercase, drop quote characters,
collapse whitespace runs to single spaces, strip. -/
def normalize_song_title (song : String) : String :=
  ⟨pyStrip (collapseWs ((pyLower song.toList).filter (fun c => !isQuote c)))⟩

/-! ### memory_service.py — the memory filter -/

/-- Strategy 1 of `filter_trending_songs`: full-string match after
normalisation. -/
def strategyExact (trending suggested : String) : Bool :=
  normalize_song_title trending == normalize_song_title suggested

/-- Strategy 2: both parsed titles nonempty and one is a substring of the
other. -/
def strategyTitleSub (trending suggested : String) : Bool :=
  let tn := (extract_song_parts trending).1
  let sn := (extract_song_parts suggested).1
  tn != "" && sn != "" &&
    (containsSub sn.toList tn.toList || containsSub tn.toList sn.toList)

/-- Strategy 3: both parsed artists nonempty and equal, both parsed titles
nonempty, and the titles share at least one whitespace-separated word. -/
def strategyArtistWord (trending suggested : String) : Bool :=
  let (tn, ta) := extract_song_parts trending
  let (sn, sa) := extract_song_parts suggested
  ta != "" && sa != "" && ta == sa && tn != "" && sn != "" &&
    decide (1 ≤ ((pySplit tn.toList).toFinset ∩ (pySplit sn.toList).toFinset).card)

/-- A trending song is dropped when any strategy matches any suggested song. -/
def isDuplicateOf (trending suggested : String) : Bool :=
  strategyExact trending suggested || strategyTitleSub trending suggested ||
    strategyArtistWord trending suggested

/-- `memory_service.filter_trending_songs`: no-op on empty memory; otherwise
keep the candidates matched by no strategy; if that removes everything,
fall back to the last five of the original list (`trending_songs[-5:]`). -/
def filter_trending_songs (trending_songs suggested_songs : List String) : List String :=
  if suggested_songs.isEmpty then trending_songs
  else
    let filtered := trending_songs.filter fun t =>
      !(suggested_songs.any fun s => isDuplicateOf t s)
    if filtered.isEmpty then trending_songs.drop (trending_songs.length - 5)
    else filtered

/-! ### memory_service.py — validate_memory_system -/

structure ValidationResult where
  valid : Bool
  status : String
  message : String
  deriving Repr, DecidableEq

/-- `memory_service.validate_memory_system`: empty memory is reported as
`empty`; with a (truthy) new song, the first remembered song whose parsed
title contains — or is contained in — the new song's parsed title (both
nonempty) makes the result invalid; otherwise the memory is `active`. -/
def validate_memory_system (suggested_songs : List String)
    (new_song : Option String := none) : ValidationResult :=
  if suggested_songs.isEmpty then
    { valid := true, status := "empty"
      message := "Memory system ready - no previous suggestions" }
  else
    let dup :=
      match new_song with
      | some ns =>
        if ns != "" then
          suggested_songs.find? fun existing =>
            let en := (extract_song_parts existing).1
            let nn := (extract_song_parts ns).1
            en != "" && nn != "" &&
              (containsSub nn.toList en.toList || containsSub en.toList nn.toList)
        else none
      | none => none
    match dup with
    | some existing =>
      { valid := false, status := "duplicate"
        message := "Song '" ++ (new_song.getD "") ++ "' is too similar to '"
          ++ existing ++ "'" }
    | none =>
      { valid := true, status := "active"
        message := "Memory tracking " ++ toString suggested_songs.length
          ++ " unique songs" }

/-! ### spotify_service.py — query parsing and match scoring

Floats are embedded as `ℚ` (`0.6 = 3/5`, `0.4 = 2/5`, `0.9 = 9/10`,
`0.8 = 4/5`).  Python `\w` is embedded ASCII-faithfully as
alphanumeric-or-underscore. -/

/-- The character class `[.!?–—,-]` of the artist-trailing-text cleanup in
`extract_song_and_artist`. -/
def trailPunct (c : Char) : Bool :=
  c == '.' || c == '!' || c == '?' || c == '–' || c == '—' || c == ',' || c == '-'

/-- `re.sub(r'[.!?–—,-]+.*$', '', l)`: the leftmost viable start is the first
class character from which the rest of the string is newline-free (one final
newline may be left unconsumed, since `$` also matches just before it);
everything from there to the end of the match is removed.  After the single
removal nothing that remains can match again. -/
def artistTrailSub (l : List Char) : List Char :=
  let tailOk : List Char → Bool := fun t =>
    t.all (· != '\n') ||
      (t.getLast? == some '\n' && t.dropLast.all (· != '\n'))
  match (List.range l.length).find?
      (fun p => trailPunct (l.getD p ' ') && tailOk (l.drop (p + 1))) with
  | some p => l.take p ++ (if l.getLast? == some '\n' then ['\n'] else [])
  | none => l

/-- `spotify_service.extract_song_and_artist`: the same two song patterns,
but groups are only stripped (not lowercased) and the artist is cut at
trailing punctuation; no match gives `(None, None)`, embedded as `none`. -/
def extract_song_and_artist (query : String) : Option (String × String) :=
  let s := query.toList
  match quotedSongMatch s with
  | some (t, a) => some (⟨pyStrip t⟩, ⟨pyStrip (artistTrailSub (pyStrip a))⟩)
  | none =>
    match plainSongMatch s with
    | some (t, a) => some (⟨pyStrip t⟩, ⟨pyStrip (artistTrailSub (pyStrip a))⟩)
    | none => none

/-- Python `\w` (ASCII-faithful): alphanumeric or underscore. -/
def isWordChar (c : Char) : Bool :=
  c.isAlphanum || c == '_'

/-- The normalisation inside `calculate_string_similarity`:
`re.sub(r'[^\w\s]', '', text.lower()).strip()`. -/
def simNormalize (s : String) : List Char :=
  pyStrip ((pyLower s.toList).filter fun c => isWordChar c || pySpace c)

/-- The word set of a normalised string (`set(norm.split())`). -/
def wordSet (l : List Char) : Finset String :=
  ((pySplit l).map fun w => (⟨w⟩ : String)).toFinset

/-- `spotify_service.calculate_string_similarity`: `0.0` when either raw
string is empty; `1.0` on normalised equality; `0.9` on substring
containment either way; `0.0` when either word set is empty; otherwise the
Jaccard ratio `|w1 ∩ w2| / |w1 ∪ w2|`. -/
def calculate_string_similarity (str1 str2 : String) : ℚ :=
  if str1 == "" || str2 == "" then 0
  else
    let n1 := simNormalize str1
    let n2 := simNormalize str2
    if n1 == n2 then 1
    else if containsSub n2 n1 || containsSub n1 n2 then 9/10
    else
      let w1 := wordSet n1
      let w2 := wordSet n2
      if w1 = ∅ ∨ w2 = ∅ then 0
      else
        let union := (w1 ∪ w2).card
        if 0 < union then ((w1 ∩ w2).card : ℚ) / (union : ℚ) else 0

/-- `spotify_service.calculate_match_score`: title weight `0.6`, artist
weight `0.4`. -/
def calculate_match_score (target_song target_artist result_song result_artist : String) : ℚ :=
  calculate_string_similarity target_song result_song * (3/5)
    + calculate_string_similarity target_artist result_artist * (2/5)

/-! ### spotify_service.py — search_spotify_song

The Spotify client is an oracle: each of the two search strategies either
raises (`none`) or returns a track list.  The per-process result cache is a
latency optimisation with no per-request semantics and is not modelled. -/

structure STrack where
  name : String
  artist : String
  deriving Repr, DecidableEq

/-- Scoring loop body of `search_spotify_song`: score the first three
tracks of a strategy's result list, keeping the strictly best scorer. -/
def scoreTracks (song_name artist_name : String) (tracks : List STrack)
    (acc : Option STrack × ℚ) : Option STrack × ℚ :=
  (tracks.take 3).foldl
    (fun (best : Option STrack × ℚ) t =>
      let score := calculate_match_score song_name artist_name t.name t.artist
      if best.2 < score then (some t, score) else best)
    acc

/-- `spotify_service.search_spotify_song` over strategy oracles: parse the
query; bail out if the song or artist is missing/empty; score strategy 1;
skip strategy 2 when the best score already reaches `0.8`; return the best
match only when its score reaches `0.6`. -/
def search_spotify_song (query : String)
    (strat1 strat2 : Option (List STrack)) : Option (STrack × ℚ) :=
  match extract_song_and_artist query with
  | none => none
  | some (song_name, artist_name) =>
    if song_name == "" || artist_name == "" then none
    else
      let b1 := scoreTracks song_name artist_name (strat1.getD []) (none, 0)
      let b2 := if 4/5 ≤ b1.2 then b1
                else scoreTracks song_name artist_name (strat2.getD []) b1
      match b2 with
      | (some t, score) => if 3/5 ≤ score then some (t, score) else none
      | (none, _) => none

/-! ### A small backtracking regex engine

`ai_service.py` relies on a larger family of `re` patterns (intent
classification and AI-response track extraction).  These are embedded via a
regex AST whose terms mirror the Python patterns one to one, executed by a
fuel-bounded continuation-passing matcher with Python semantics: leftmost
start wins, alternatives are tried left to right, `starG`/`starL` are the
greedy/lazy quantifiers, `eos` is `$` (end of string, or just before a final
newline), and a lookahead consumes nothing. -/

inductive RE where
  | eps : RE
  | cls : (Char → Bool) → RE
  | seq : RE → RE → RE
  | alt : RE → RE → RE
  | starG : RE → RE
  | starL : RE → RE
  | grp : Nat → RE → RE
  | look : RE → RE
  | bos : RE
  | eos : RE

namespace RE

/-- Greedy `+`. -/
def plusG (r : RE) : RE := .seq r (.starG r)

/-- Lazy `+?`. -/
def plusL (r : RE) : RE := .seq r (.starL r)

/-- Greedy `?`. -/
def optG (r : RE) : RE := .alt r .eps

/-- Concatenation of a pattern list. -/
def catList (l : List RE) : RE := l.foldr RE.seq .eps

/-- Ordered alternation of a pattern list (empty list never matches). -/
def altList : List RE → RE
  | [] => .cls fun _ => false
  | [r] => r
  | r :: rest => .alt r (altList rest)

/-- A literal string, case-insensitively (for `re.IGNORECASE` call sites). -/
def litCI (t : String) : RE :=
  catList (t.toList.map fun c => RE.cls fun x => x.toLower == c.toLower)

/-- A literal string, case-sensitively. -/
def lit (t : String) : RE :=
  catList (t.toList.map fun c => RE.cls (· == c))

/-- `.`: any character except a newline. -/
def dotC : RE := .cls (· != '\n')

/-- `\s`. -/
def wsC : RE := .cls pySpace

end RE

/-- Captures: `(group, start, end)` triples, most recent first. -/
abbrev Caps := List (Nat × Nat × Nat)

/-- The backtracking matcher.  `mrun s fuel r i caps k` tries to match `r`
at index `i` of `s` and passes the end index and captures to the
continuation `k`; `none` propagates a failure back into earlier
alternatives.  The fuel only bounds recursion depth and is chosen large
enough that it is never exhausted on the inputs considered. -/
def mrun (s : List Char) :
    Nat → RE → Nat → Caps → (Nat → Caps → Option (Nat × Caps)) → Option (Nat × Caps)
  | 0, _, _, _, _ => none
  | fuel + 1, r, i, caps, k =>
    match r with
    | .eps => k i caps
    | .cls p =>
      match s.get? i with
      | some c => if p c then k (i + 1) caps else none
      | none => none
    | .seq a b => mrun s fuel a i caps fun j cs => mrun s fuel b j cs k
    | .alt a b =>
      match mrun s fuel a i caps k with
      | some r => some r
      | none => mrun s fuel b i caps k
    | .starG a =>
      match mrun s fuel a i caps
          (fun j cs => if j == i then none else mrun s fuel (.starG a) j cs k) with
      | some r => some r
      | none => k i caps
    | .starL a =>
      match k i caps with
      | some r => some r
      | none =>
        mrun s fuel a i caps fun j cs =>
          if j == i then none else mrun s fuel (.starL a) j cs k
    | .grp n a => mrun s fuel a i caps fun j cs => k j ((n, i, j) :: cs)
    | .look a =>
      match mrun s fuel a i caps (fun j cs => some (j, cs)) with
      | some _ => k i caps
      | none => none
    | .bos => if i == 0 then k i caps else none
    | .eos =>
      if i == s.length || (i + 1 == s.length && s.getD i ' ' == '\n') then
        k i caps
      else none

/-- Fuel bound for `mrun`: generous for the small patterns used here. -/
def reFuel (s : List Char) : Nat := 4000 + 32 * s.length

/-- `re.search`: try each start index in order and return
`(start, end, captures)` of the first that matches. -/
def research (r : RE) (s : List Char) : Option (Nat × Nat × Caps) :=
  (List.range (s.length + 1)).findSome? fun i =>
    (mrun s (reFuel s) r i [] fun j cs => some (j, cs)).map fun p => (i, p.1, p.2)

/-- The substring captured by group `n` (most recent capture wins). -/
def reGroup (s : List Char) (caps : Caps) (n : Nat) : Option (List Char) :=
  (caps.find? fun e => e.1 == n).map fun e => (s.drop e.2.1).take (e.2.2 - e.2.1)

/-! ### ai_service.py — the spotify artist-lookup collaborator -/

structure SArtist where
  name : String
  id : String
  popularity : Nat
  genres : List String := []
  deriving Repr, DecidableEq

/-- The Spotify client as seen by `check_if_artist_exists`: absent
(`none`), or a by-name artist search that either raises (`none`) or
returns an artist list. -/
abbrev ArtistClient := Option (String → Option (List SArtist))

/-- Relevance score of one lookup result in `check_if_artist_exists`:
exact (case-insensitive) name equality adds 100 to the popularity,
substring containment either way adds 50. -/
def artistScore (query : String) (a : SArtist) : Nat :=
  let an := pyLower a.name.toList
  let ql := pyLower query.toList
  if an == ql then a.popularity + 100
  else if containsSub an ql || containsSub ql an then a.popularity + 50
  else a.popularity

/-- The selection loop of `check_if_artist_exists`: keep the strictly
highest-scoring artist, starting from score 0. -/
def pickBestArtist (query : String) (artists : List SArtist) : Option SArtist :=
  (artists.foldl
    (fun (best : Option SArtist × Nat) a =>
      let score := artistScore query a
      if best.2 < score then (some a, score) else best)
    (none, 0)).1

/-- `ai_service.check_if_artist_exists`: `none` without a client, on a
raised search, on an empty result, and when the best candidate's
popularity does not exceed the fixed floor of 15. -/
def check_if_artist_exists (query : String) (client : ArtistClient) : Option SArtist :=
  match client with
  | none => none
  | some search =>
    match search query with
    | none => none
    | some artists =>
      if artists.isEmpty then none
      else
        match pickBestArtist query artists with
        | some best => if 15 < best.popularity then some best else none
        | none => none

/-! ### ai_service.py — intent-classifier patterns -/

namespace Pat

open RE

/-- `r'^(.+?)\s+by\s+(.+?)$'` (specific-song pattern 1). -/
def specific1 : RE :=
  catList [.bos, .grp 1 (plusL dotC), plusG wsC, litCI "by", plusG wsC,
    .grp 2 (plusL dotC), .eos]

/-- `r'(?:play|find|search|give me|want|show me)\s+(.+?)\s+by\s+(.+?)(?:\s|$)'`
(specific-song pattern 2). -/
def specific2 : RE :=
  catList [altList [litCI "play", litCI "find", litCI "search", litCI "give me",
      litCI "want", litCI "show me"],
    plusG wsC, .grp 1 (plusL dotC), plusG wsC, litCI "by", plusG wsC,
    .grp 2 (plusL dotC), .alt wsC .eos]

/-- `songs?` / `tracks?`. -/
def songsOpt : RE := .seq (litCI "song") (optG (litCI "s"))

def tracksOpt : RE := .seq (litCI "track") (optG (litCI "s"))

/-- The five explicit artist patterns of `analyze_user_request`, in order. -/
def artist1 : RE :=
  catList [altList [litCI "give me", litCI "play", litCI "find", litCI "show me",
      litCI "want"],
    plusG wsC, altList [songsOpt, litCI "music", tracksOpt], plusG wsC,
    altList [litCI "by", litCI "from"], plusG wsC, .grp 1 (plusL dotC),
    .alt wsC .eos]

def artist2 : RE :=
  catList [.alt .bos wsC, songsOpt, plusG wsC, altList [litCI "by", litCI "from"],
    plusG wsC, .grp 1 (plusL dotC), .alt wsC .eos]

def artist3 : RE :=
  catList [.alt .bos wsC, .grp 1 (plusL dotC), plusG wsC, songsOpt, .alt wsC .eos]

def artist4 : RE :=
  catList [altList [litCI "music", tracksOpt], plusG wsC,
    altList [litCI "by", litCI "from"], plusG wsC, .grp 1 (plusL dotC),
    .alt wsC .eos]

def artist5 : RE :=
  catList [.alt .bos wsC, .grp 1 (plusL dotC), plusG wsC,
    altList [litCI "music", litCI "artist", litCI "band"], .alt wsC .eos]

def artistAll : List RE := [artist1, artist2, artist3, artist4, artist5]

/-- The command patterns of `is_potential_artist_query` (matched without
flags against the already-lowercased message). -/
def command : List RE :=
  [ catList [lit "give me", .starG dotC],
    catList [lit "play some", .starG dotC],
    catList [lit "find", .starG dotC, lit "music"],
    catList [lit "i want", .starG dotC],
    catList [lit "show me", .starG dotC],
    catList [.starG dotC, lit "song", optG (lit "s"), lit " ",
      .alt (lit "by") (lit "from"), .starG dotC] ]

end Pat

/-! ### ai_service.py — is_potential_artist_query and analyze_user_request -/

/-- The `non_artist_indicators` stop-word set of `is_potential_artist_query`. -/
def nonArtistIndicators : List String :=
  [ "happy", "sad", "angry", "excited", "chill", "relaxed", "stressed",
    "love", "hate", "tired", "energetic", "lonely", "confident",
    "play", "find", "search", "give", "show", "get", "want", "need",
    "hello", "hi", "hey", "thanks", "help", "please",
    "music", "song", "songs", "playlist", "album", "track", "tracks",
    "good", "bad", "best", "worst", "new", "old", "latest", "trending",
    "popular", "random", "any", "some", "something", "anything",
    "rock", "pop", "rap", "jazz", "blues", "country", "electronic",
    "classical", "folk", "metal", "punk", "reggae", "disco",
    "hindi", "spanish", "korean", "japanese", "french", "german",
    "bollywood", "kpop", "latin", "african", "american", "british" ]

/-- `ai_service.is_potential_artist_query`: reject more than four words,
fewer than two characters, all-stop-word messages and command-shaped
messages; otherwise the message may be an artist name. -/
def is_potential_artist_query (message : String) : Bool :=
  let m := pyLower (pyStrip message.toList)
  let words := pySplit m
  if 4 < words.length then false
  else if m.length < 2 then false
  else if words.all (fun w => nonArtistIndicators.contains ⟨w⟩) then false
  else if Pat.command.any (fun p => (research p m).isSome) then false
  else true

/-- The classifier's result record (`analyze_user_request` return dicts;
absent keys are `none`). -/
structure Request where
  type : String
  search_terms : List String
  genre_hint : String
  song_name : Option String := none
  artist_name : Option String := none
  artist_id : Option String := none
  search_query : Option String := none
  deriving Repr, DecidableEq

/-- `profile_patterns` (substring-tested against the lowercased message). -/
def profilePatterns : List String :=
  [ "what my name", "whats my name", "what's my name",
    "who am i", "my profile", "my spotify", "my music taste",
    "what do you know about me", "tell me about myself",
    "my genres", "my artists", "my preferences" ]

/-- `creator_patterns`. -/
def creatorPatterns : List String :=
  [ "who made you", "who created you", "who built you", "who developed you",
    "who is your creator", "who is your author", "who is your developer",
    "who programmed you", "who designed you", "who coded you",
    "name your creator", "name your author", "who is your maker",
    "who owns you", "who is behind you", "your creator", "your author",
    "who is your boss", "who is your god", "who is your queen" ]

/-- The `excluded_words` list guarding the artist patterns. -/
def excludedWords : List String :=
  [ "happy", "sad", "chill", "me", "some", "good", "new", "old", "best",
    "favorite", "latest", "popular", "trending", "hot", "cool", "nice",
    "great", "awesome", "amazing", "perfect", "love", "like", "want",
    "need", "get", "find", "search", "play", "listen", "hear", "show",
    "give", "the", "a", "an", "and", "or", "but", "for", "with",
    "random", "any", "something", "anything" ]

/-- The `specific_song` request built from the two captured groups. -/
def mkSpecificSong (song_name artist_name : List Char) : Request :=
  let sn : String := ⟨pyTitle song_name⟩
  let an : String := ⟨pyTitle artist_name⟩
  let q := "'" ++ sn ++ "' by " ++ an
  { type := "specific_song", song_name := some sn, artist_name := some an,
    search_query := some q, search_terms := [q],
    genre_hint := "the song '" ++ sn ++ "' by " ++ an }

/-- The `artist_search` request built from a verified artist. -/
def mkArtistSearch (info : SArtist) : Request :=
  { type := "artist_search", artist_name := some info.name,
    artist_id := some info.id,
    search_terms := [info.name ++ " songs", info.name ++ " popular",
      info.name ++ " hits"],
    genre_hint := "songs by " ++ info.name }

/-- The specific-song rule: first pattern whose two stripped groups both
have length above one wins. -/
def specificSongCheck (ml : List Char) : Option Request :=
  [Pat.specific1, Pat.specific2].findSome? fun pat =>
    match research pat ml with
    | some (_, _, caps) =>
      match reGroup ml caps 1, reGroup ml caps 2 with
      | some g1, some g2 =>
        let sn := pyStrip g1
        let an := pyStrip g2
        if 1 < sn.length && 1 < an.length then some (mkSpecificSong sn an)
        else none
      | _, _ => none
    | none => none

/-- The explicit-artist rule: first pattern whose stripped capture passes
the word filters and is verified by the artist-existence check wins,
yielding the verified artist. -/
def artistPatternCheck (ml : List Char) (client : ArtistClient) : Option SArtist :=
  Pat.artistAll.findSome? fun pat =>
    match research pat ml with
    | some (_, _, caps) =>
      match reGroup ml caps 1 with
      | some g1 =>
        let an : String := ⟨pyStrip g1⟩
        if 2 < an.length && !excludedWords.contains an &&
            !(["songs", "music", "tracks"].any fun w =>
              containsSub an.toList w.toList) &&
            (pySplit an.toList).length ≤ 3 then
          check_if_artist_exists an client
        else none
      | none => none
    | none => none

/-- A plain category request (`type` / `search_terms` / `genre_hint` only). -/
def mkCategory (t : String) (terms : List String) (hint : String) : Request :=
  { type := t, search_terms := terms, genre_hint := hint }

/-- The mood × region combination chain (`if/elif`, evaluated in source
order after the artist rules and before the single-dimension categories). -/
def comboCheck (ml : List Char) : Option Request :=
  let has : String → Bool := fun w => containsSub ml w.toList
  let hasAny : List String → Bool := fun ws => ws.any has
  if has "happy" && has "bollywood" then
    some (mkCategory "happy_bollywood"
      ["happy bollywood songs", "upbeat hindi music", "bollywood dance",
        "cheerful hindi", "joyful bollywood", "bollywood party songs"]
      "happy Bollywood music")
  else if has "happy" && hasAny ["kpop", "k-pop", "korean"] then
    some (mkCategory "happy_kpop"
      ["happy kpop", "upbeat korean songs", "cheerful kpop",
        "bts happy songs", "twice upbeat", "kpop dance songs"]
      "happy K-pop music")
  else if has "happy" && hasAny ["afrobeats", "african"] then
    some (mkCategory "happy_afrobeats"
      ["happy afrobeats", "upbeat african music", "joyful afrobeats",
        "afrobeats dance", "cheerful nigerian music", "party afrobeats"]
      "happy Afrobeats music")
  else if has "happy" && has "latin" then
    some (mkCategory "happy_latin"
      ["happy latin music", "upbeat reggaeton", "joyful salsa",
        "latin dance songs", "cheerful spanish music", "party latin"]
      "happy Latin music")
  else if has "sad" && has "bollywood" then
    some (mkCategory "sad_bollywood"
      ["sad bollywood songs", "emotional hindi music", "bollywood heartbreak",
        "melancholic hindi", "sad arijit singh", "bollywood breakup songs"]
      "sad Bollywood music")
  else if has "sad" && hasAny ["kpop", "k-pop", "korean"] then
    some (mkCategory "sad_kpop"
      ["sad kpop", "emotional korean songs", "melancholic kpop",
        "bts sad songs", "iu emotional", "kpop ballads"]
      "sad K-pop music")
  else if has "sad" && has "indie" then
    some (mkCategory "sad_indie"
      ["sad indie music", "melancholic indie", "emotional indie rock",
        "indie heartbreak", "sad alternative", "indie folk sad"]
      "sad indie music")
  else if has "chill" && hasAny ["kpop", "k-pop", "korean"] then
    some (mkCategory "chill_kpop"
      ["chill kpop", "relaxing korean music", "calm kpop",
        "lofi kpop", "chill korean r&b", "peaceful kpop"]
      "chill K-pop music")
  else if has "chill" && has "bollywood" then
    some (mkCategory "chill_bollywood"
      ["chill bollywood", "relaxing hindi music", "calm bollywood",
        "peaceful hindi songs", "bollywood acoustic", "soft bollywood"]
      "chill Bollywood music")
  else if has "chill" && has "afrobeats" then
    some (mkCategory "chill_afrobeats"
      ["chill afrobeats", "relaxing african music", "smooth afrobeats",
        "calm nigerian music", "afrobeats r&b", "mellow afrobeats"]
      "chill Afrobeats music")
  else if hasAny ["energetic", "pump", "hype", "intense"] && has "bollywood" then
    some (mkCategory "energetic_bollywood"
      ["energetic bollywood", "pump up hindi songs", "high energy bollywood",
        "bollywood workout songs", "intense hindi music", "hype bollywood"]
      "energetic Bollywood music")
  else if hasAny ["energetic", "pump", "hype", "intense"] &&
      hasAny ["kpop", "k-pop"] then
    some (mkCategory "energetic_kpop"
      ["energetic kpop", "pump up korean songs", "high energy kpop",
        "kpop workout songs", "intense kpop", "hype korean music"]
      "energetic K-pop music")
  else if hasAny ["romantic", "love"] && has "bollywood" then
    some (mkCategory "romantic_bollywood"
      ["romantic bollywood songs", "love hindi music", "bollywood romantic",
        "hindi love songs", "romantic arijit singh", "bollywood couples songs"]
      "romantic Bollywood music")
  else if hasAny ["romantic", "love"] && hasAny ["kpop", "k-pop"] then
    some (mkCategory "romantic_kpop"
      ["romantic kpop", "love korean songs", "kpop love ballads",
        "romantic korean music", "kpop couples songs", "korean love songs"]
      "romantic K-pop music")
  else none

/-- `ai_service.analyze_user_request`, embedded up to the end of the
mood × region combination chain.  The remaining single-dimension category
chain (regional, genre, decade, emotion, activity rules and the `general`
default, lines 487–1139 of the source) consults neither the Spotify client
nor any other collaborator, and no claim depends on its internals, so it is
abstracted as the `rest` parameter. -/
def analyze_user_request (user_message : String) (client : ArtistClient)
    (rest : String → Request) : Request :=
  let ml := pyLower user_message.toList
  if profilePatterns.any (fun p => containsSub ml p.toList) then
    { type := "profile_request", search_terms := [],
      genre_hint := "user profile and music taste information" }
  else if creatorPatterns.any (fun p => containsSub ml p.toList) then
    { type := "creator_request", search_terms := [],
      genre_hint := "creator and author information" }
  else
    match specificSongCheck ml with
    | some r => r
    | none =>
      match artistPatternCheck ml client with
      | some info => mkArtistSearch info
      | none =>
        match (if is_potential_artist_query user_message then
            check_if_artist_exists ⟨pyStrip user_message.toList⟩ client
          else none) with
        | some info => mkArtistSearch info
        | none =>
          match comboCheck ml with
          | some r => r
          | none => rest user_message

/-! ### ai_service.py — extract_song_from_response -/

/-- The boundary/exclusion class `[.!?\n,🎵🎶🇯🇲🇧🇩🇮🇳🌍–—]` of the
extraction patterns (regional-indicator pairs of the flag emojis listed as
individual characters, as Python's `re` treats them). -/
def exBound (c : Char) : Bool :=
  c == '.' || c == '!' || c == '?' || c == '\n' || c == ',' ||
    c == '–' || c == '—' ||
    c.val == 0x1F3B5 || c.val == 0x1F3B6 || c.val == 0x1F1EF ||
    c.val == 0x1F1F2 || c.val == 0x1F1E7 || c.val == 0x1F1E9 ||
    c.val == 0x1F1EE || c.val == 0x1F1F3 || c.val == 0x1F30D

/-- The title class `[^🎵🎶\n–—]` of the unquoted fallback pattern. -/
def exTitle6 (c : Char) : Bool :=
  c == '\n' || c == '–' || c == '—' || c.val == 0x1F3B5 || c.val == 0x1F3B6

/-- ASCII letter (`[a-zA-Z]`). -/
def isAsciiLetter (c : Char) : Bool :=
  ('a' ≤ c && c ≤ 'z') || ('A' ≤ c && c ≤ 'Z')

namespace Pat

open RE

/-- `(?=[\s]*[.!?\n,🎵🎶🇯🇲🇧🇩🇮🇳🌍–—]|$)` — the artist group's
terminator lookahead. -/
def exLook : RE :=
  .look (.alt (catList [.starG wsC, .cls exBound]) .eos)

/-- The lazy artist group `([^.!?\n,🎵🎶🇯🇲🇧🇩🇮🇳🌍–—]+?)` with its
lookahead. -/
def exArtist : RE :=
  .seq (.grp 2 (plusL (.cls fun c => !exBound c))) exLook

/-- The quoted title `['\"]([^'\"]+)['\"]`. -/
def exQuotedTitle : RE :=
  catList [.cls isQuote, .grp 1 (plusG (.cls fun c => !isQuote c)),
    .cls isQuote]

/-- The six extraction patterns of `extract_song_from_response`, in order:
`Try`/`Check out`/`Listen to`/`Go with` + quoted title, the standalone
quoted form, and the unquoted `Try` fallback. -/
def extraction : List RE :=
  [ catList [litCI "try ", exQuotedTitle, litCI " by ", exArtist],
    catList [litCI "check out ", exQuotedTitle, litCI " by ", exArtist],
    catList [litCI "listen to ", exQuotedTitle, litCI " by ", exArtist],
    catList [litCI "go with ", exQuotedTitle, litCI " by ", exArtist],
    catList [.alt .bos (.cls fun c => !isAsciiLetter c), exQuotedTitle,
      litCI " by ", exArtist],
    catList [litCI "try ", .grp 1 (plusL (.cls fun c => !exTitle6 c)),
      litCI " by ", exArtist] ]

/-- The 20 `cleanup_words` prefixes (each is applied as
`re.sub(prefix + '.*$', '', artist, re.IGNORECASE)`). -/
def cleanup : List RE :=
  [ catList [.starG wsC, .grp 1 (altList [lit "–", lit "—", lit "!", lit "?",
      lit ".", lit ","])],
    .seq (plusG wsC) (litCI "it's"),
    .seq (plusG wsC) (litCI "that's"),
    .seq (plusG wsC) (litCI "sweet"),
    .seq (plusG wsC) (litCI "reggae"),
    .seq (plusG wsC) (litCI "perfection"),
    .seq (plusG wsC) (litCI "vibes"),
    .seq (plusG wsC) (litCI "music"),
    .seq (plusG wsC) (litCI "hits"),
    .seq (plusG wsC) (litCI "pure"),
    .seq (plusG wsC) (litCI "total"),
    .seq (plusG wsC) (litCI "absolute"),
    .seq (plusG wsC) (litCI "epic"),
    .seq (plusG wsC) (litCI "energy"),
    .seq (plusG wsC) (litCI "feels"),
    .seq (plusG wsC) (litCI "mood"),
    .seq (plusG wsC) (litCI "guaranteed"),
    .seq (plusG wsC) (litCI "instant"),
    .seq (plusG wsC) (litCI "serious"),
    .seq (plusG wsC) (litCI "major") ]

end Pat

/-- `re.sub(pat + '.*$', '', l)` for the cleanup patterns: remove the
leftmost match, which extends to the end of the string (or to just before
a final newline).  Nothing that remains can match again, so a single
removal is the full substitution. -/
def reSubToEnd (pat : RE) (l : List Char) : List Char :=
  match research (RE.catList [pat, RE.starG RE.dotC, RE.eos]) l with
  | some (i, j, _) => l.take i ++ l.drop j
  | none => l

/-- The character set of `rstrip('!.?–—,-')`. -/
def rstripSet (c : Char) : Bool :=
  c == '!' || c == '.' || c == '?' || c == '–' || c == '—' || c == ',' ||
    c == '-'

/-- The emoji-removal class `[🎵🎶🇯🇲🔥💯⚡🇧🇩🇮🇳🌍🇰🇷🇺🇸🇲🇽🇧🇷🇰🇪]`
(again with flags as individual regional indicators). -/
def emojiChar (c : Char) : Bool :=
  c.val == 0x1F3B5 || c.val == 0x1F3B6 || c.val == 0x1F525 ||
    c.val == 0x1F4AF || c.val == 0x26A1 || c.val == 0x1F30D ||
    c.val == 0x1F1EF || c.val == 0x1F1F2 || c.val == 0x1F1E7 ||
    c.val == 0x1F1E9 || c.val == 0x1F1EE || c.val == 0x1F1F3 ||
    c.val == 0x1F1F0 || c.val == 0x1F1F7 || c.val == 0x1F1FA ||
    c.val == 0x1F1F8 || c.val == 0x1F1FD || c.val == 0x1F1EA

/-- `' '.join(words)`. -/
def joinSpace (ws : List (List Char)) : List Char :=
  List.intercalate [' '] ws

/-- Artist-name post-processing of `extract_song_from_response`: the 20
cleanup substitutions, strip + `rstrip('!.?–—,-')`, first-words truncation
of overlong names, emoji removal, final strip. -/
def cleanArtistCapture (g2 : List Char) : List Char :=
  let a1 := Pat.cleanup.foldl (fun a p => reSubToEnd p a) (pyStrip g2)
  let a2 := ((pyStrip a1).reverse.dropWhile rstripSet).reverse
  let a3 :=
    if 35 < a2.length then
      let words := pySplit a2
      if 3 < words.length then joinSpace (words.take 3)
      else if 1 < words.length then joinSpace (words.take 2)
      else a2
    else a2
  pyStrip (a3.filter fun c => !emojiChar c)

/-- `ai_service.extract_song_from_response`: first extraction pattern whose
stripped title and cleaned artist are both nonempty produces
`'<title>' by <artist>`; otherwise `None`. -/
def extract_song_from_response (ai_text : String) : Option String :=
  let s := ai_text.toList
  Pat.extraction.findSome? fun pat =>
    match research pat s with
    | some (_, _, caps) =>
      match reGroup s caps 1, reGroup s caps 2 with
      | some g1, some g2 =>
        let song_name := pyStrip g1
        let artist := cleanArtistCapture g2
        if !song_name.isEmpty && !artist.isEmpty then
          some ("'" ++ (⟨song_name⟩ : String) ++ "' by " ++ (⟨artist⟩ : String))
        else none
      | _, _ => none
    | none => none

/-! ### app.py — the selection part of the /chat pipeline (lines 571–668)

The composer after candidate retrieval: memory filtering (skipped for
specific songs), AI-text generation (an opaque collaborator output),
track extraction with the specific-song query fallback, the two platform
lookups, the first-available-candidate fallback, and memory validation
with alternate-candidate substitution.  `SPOTIFY_ENABLED` and
`YOUTUBE_ENABLED` are taken as true; the collaborators are oracles in
`ChatEnv` (`none` models a failed lookup). -/

structure YtVideo where
  title : String
  channel : String
  deriving Repr, DecidableEq

structure ChatEnv where
  searchSpotify : String → Option (STrack × ℚ)
  searchYoutube : String → Option YtVideo
  aiText : String

/-- `f"'{spotify_data['name']}' by {spotify_data['artist']}"`. -/
def descOfTrack (t : STrack) : String :=
  "'" ++ t.name ++ "' by " ++ t.artist

/-- `f"'{youtube_data['title']}' by {youtube_data['channel']}"`. -/
def descOfVideo (v : YtVideo) : String :=
  "'" ++ v.title ++ "' by " ++ v.channel

/-- Observable outcome of the selection stage. -/
structure ChatOutcome where
  filteredSongs : List String
  songQuery : Option String
  spotify : Option (STrack × ℚ)
  youtube : Option YtVideo
  actualSong : Option String
  memoryCheck : Option ValidationResult
  deriving Repr

/-- Intermediate state after lookups, before memory validation. -/
structure SelectResult where
  avail : List String
  sq : Option String
  spotify : Option (STrack × ℚ)
  youtube : Option YtVideo
  actual : Option String
  deriving Repr

/-- Lines 571–650: memory filter, extraction, platform lookups and the
first-available fallback — the pipeline before memory validation. -/
def selectStage (reqType : String) (searchQuery : Option String)
    (availableSongs suggestedSongs : List String) (env : ChatEnv) :
    SelectResult :=
  let avail := if reqType == "specific_song" then availableSongs
    else filter_trending_songs availableSongs suggestedSongs
  let sq0 := extract_song_from_response env.aiText
  let sq := if reqType == "specific_song" && sq0.isNone then searchQuery else sq0
  let spotify0 := sq.bind env.searchSpotify
  let youtube0 := sq.bind env.searchYoutube
  let actual0 : Option String :=
    match spotify0 with
    | some (t, _) => some (descOfTrack t)
    | none => youtube0.map descOfVideo
  if spotify0.isNone && youtube0.isNone && !avail.isEmpty &&
      reqType != "specific_song" then
    let fq := avail.headD ""
    let sp := env.searchSpotify fq
    let actual1 :=
      match sp with
      | some (t, _) => some (descOfTrack t)
      | none => none
    let yt := env.searchYoutube fq
    let actual2 :=
      match actual1 with
      | some a => some a
      | none => yt.map descOfVideo
    ⟨avail, sq, sp, yt, actual2⟩
  else ⟨avail, sq, spotify0, youtube0, actual0⟩

/-- One alternation attempt of lines 659–668: look the candidate up on
Spotify and accept its descriptor when it validates against memory. -/
def tryAlternate (env : ChatEnv) (suggestedSongs : List String)
    (alt : String) : Option ((STrack × ℚ) × String) :=
  match env.searchSpotify alt with
  | some (t, sc) =>
    let altDesc := descOfTrack t
    if (validate_memory_system suggestedSongs (some altDesc)).valid then
      some ((t, sc), altDesc)
    else none
  | none => none

/-- Lines 652–668: validate the actually-returned descriptor against
memory (skipped for specific songs); on a violation try the next up to
five filtered candidates, looking each up on Spotify and accepting the
first whose descriptor validates; keep the original when none does. -/
def chatPipeline (reqType : String) (searchQuery : Option String)
    (availableSongs suggestedSongs : List String) (env : ChatEnv) :
    ChatOutcome :=
  let st := selectStage reqType searchQuery availableSongs suggestedSongs env
  match st.actual with
  | some a =>
    if reqType != "specific_song" then
      let mc := validate_memory_system suggestedSongs (some a)
      if !mc.valid then
        if 1 < st.avail.length then
          match ((st.avail.drop 1).take 5).findSome?
              (tryAlternate env suggestedSongs) with
          | some (sp, d) =>
            { filteredSongs := st.avail, songQuery := st.sq, spotify := some sp,
              youtube := st.youtube, actualSong := some d,
              memoryCheck := some mc }
          | none =>
            { filteredSongs := st.avail, songQuery := st.sq,
              spotify := st.spotify, youtube := st.youtube,
              actualSong := some a, memoryCheck := some mc }
        else
          { filteredSongs := st.avail, songQuery := st.sq,
            spotify := st.spotify, youtube := st.youtube,
            actualSong := some a, memoryCheck := some mc }
      else
        { filteredSongs := st.avail, songQuery := st.sq, spotify := st.spotify,
          youtube := st.youtube, actualSong := some a, memoryCheck := some mc }
    else
      { filteredSongs := st.avail, songQuery := st.sq, spotify := st.spotify,
        youtube := st.youtube, actualSong := some a, memoryCheck := none }
  | none =>
    { filteredSongs := st.avail, songQuery := st.sq, spotify := st.spotify,
      youtube := st.youtube, actualSong := none, memoryCheck := none }

/-- The Jaccard word-overlap ratio of two normalised strings. -/
def jaccardWords (n1 n2 : List Char) : ℚ :=
  ((wordSet n1 ∩ wordSet n2).card : ℚ) / ((wordSet n1 ∪ wordSet n2).card : ℚ)

/-- Reference definition following the claim's wording (not the source):
`1.0` for exact normalised equality, `0.9` for substring containment in
either direction, otherwise the Jaccard word-overlap ratio. -/
def claimSimilarity (str1 str2 : String) : ℚ :=
  let n1 := simNormalize str1
  let n2 := simNormalize str2
  if n1 == n2 then 1
  else if containsSub n2 n1 || containsSub n1 n2 then 9/10
  else jaccardWords n1 n2

/-- A concrete artist-lookup collaborator that recognises `keshi`. -/
def keshiClient : ArtistClient :=
  some fun q => if q == "keshi" then some [⟨"keshi", "kid1", 75, []⟩] else some []

/-- A concrete environment exercising the memory-violation alternation:
the AI text names a track that fuzzy-matches history, and the second
filtered candidate resolves to a track that does not. -/
def altEnv : ChatEnv :=
  { searchSpotify := fun q =>
      if q == "'Hello' by Adele" then some (⟨"Hello", "Adele"⟩, 1)
      else if q == "'Other Song' by B" then some (⟨"Other Song", "B"⟩, 1)
      else none,
    searchYoutube := fun _ => none,
    aiText := "Try 'Hello' by Adele" }

/-! ## Theorems -/

/-! ### Helper lemmas -/

theorem isDuplicateOf_eq_false_iff (t s : String) :
    isDuplicateOf t s = false ↔
      strategyExact t s = false ∧ strategyTitleSub t s = false ∧
        strategyArtistWord t s = false := by
  unfold isDuplicateOf
  constructor
  · intro h
    rcases Bool.or_eq_false_iff.mp h with ⟨h12, h3⟩
    rcases Bool.or_eq_false_iff.mp h12 with ⟨h1, h2⟩
    exact ⟨h1, h2, h3⟩
  · rintro ⟨h1, h2, h3⟩
    rw [h1, h2, h3]
    rfl

/-- C1: with a non-empty history, `filter_trending_songs` either returns
only candidates on which none of the three fuzzy-match strategies fires
against any history entry, or — when filtering removed everything — exactly
the last five elements of the original candidate list. -/
theorem filter_excludes_matches_or_falls_back (cands hist : List String)
    (hne : hist ≠ []) :
    (∀ t ∈ filter_trending_songs cands hist, ∀ s ∈ hist,
      strategyExact t s = false ∧ strategyTitleSub t s = false ∧
        strategyArtistWord t s = false) ∨
    filter_trending_songs cands hist = cands.drop (cands.length - 5) := by
  have hne' : hist.isEmpty = false := by
    cases hist with
    | nil => exact absurd rfl hne
    | cons a l => rfl
  unfold filter_trending_songs
  rw [hne']
  by_cases hf : (cands.filter fun t => !(hist.any fun s => isDuplicateOf t s)).isEmpty
  · right
    simp only [hf]
    rfl
  · left
    intro t ht s hs
    simp only [Bool.false_eq_true, if_false, hf] at ht
    have hmem := List.mem_filter.mp ht
    have hany : (hist.any fun s => isDuplicateOf t s) = false := by
      simpa using hmem.2
    have hdup : isDuplicateOf t s = false := by
      rcases Bool.eq_false_or_eq_true (isDuplicateOf t s) with h | h
      swap
      · exact h
      · exfalso
        have : (hist.any fun s => isDuplicateOf t s) = true :=
          List.any_eq_true.mpr ⟨s, hs, h⟩
        rw [hany] at this
        exact Bool.false_ne_true this
    exact (isDuplicateOf_eq_false_iff t s).mp hdup

/-- C1 witness: ten candidates that all fuzzy-match the single history
entry; the filter returns exactly the last five of the original ten. -/
theorem filter_excludes_matches_or_falls_back_witness :
    (["'song' by artist"] : List String) ≠ [] ∧
    ((∀ t ∈ filter_trending_songs
        ["'song 0' by a0", "'song 1' by a1", "'song 2' by a2", "'song 3' by a3",
         "'song 4' by a4", "'song 5' by a5", "'song 6' by a6", "'song 7' by a7",
         "'song 8' by a8", "'song 9' by a9"] ["'song' by artist"],
      ∀ s ∈ (["'song' by artist"] : List String),
        strategyExact t s = false ∧ strategyTitleSub t s = false ∧
          strategyArtistWord t s = false) ∨
      filter_trending_songs
        ["'song 0' by a0", "'song 1' by a1", "'song 2' by a2", "'song 3' by a3",
         "'song 4' by a4", "'song 5' by a5", "'song 6' by a6", "'song 7' by a7",
         "'song 8' by a8", "'song 9' by a9"] ["'song' by artist"] =
        (["'song 0' by a0", "'song 1' by a1", "'song 2' by a2", "'song 3' by a3",
          "'song 4' by a4", "'song 5' by a5", "'song 6' by a6", "'song 7' by a7",
          "'song 8' by a8", "'song 9' by a9"] : List String).drop (10 - 5)) ∧
    filter_trending_songs
        ["'song 0' by a0", "'song 1' by a1", "'song 2' by a2", "'song 3' by a3",
         "'song 4' by a4", "'song 5' by a5", "'song 6' by a6", "'song 7' by a7",
         "'song 8' by a8", "'song 9' by a9"] ["'song' by artist"] =
      ["'song 5' by a5", "'song 6' by a6", "'song 7' by a7",
       "'song 8' by a8", "'song 9' by a9"] :=
  ⟨by decide,
   filter_excludes_matches_or_falls_back _ _ (by decide),
   by decide⟩

/-- C4: the filter is the identity on an empty history, and its output is
always a sublist (hence order-preserving subsequence) of the candidate
input; inputs are never mutated (all embedded functions are pure). -/
theorem filter_noop_on_empty_history_and_preserves_order
    (cands hist : List String) :
    filter_trending_songs cands [] = cands ∧
    (filter_trending_songs cands hist).Sublist cands := by
  constructor
  · rfl
  · unfold filter_trending_songs
    by_cases hh : hist.isEmpty
    · simp only [hh]
      exact List.Sublist.refl cands
    · simp only [hh, Bool.false_eq_true, if_false]
      by_cases hf : (cands.filter fun t => !(hist.any fun s => isDuplicateOf t s)).isEmpty
      · simp only [hf]
        exact List.drop_sublist _ _
      · simp only [hf, Bool.false_eq_true, if_false]
        exact List.filter_sublist cands

theorem byMarkerAt_of_le {s : List Char} {k : Nat} (h : s.length ≤ k) :
    byMarkerAt s k = false := by
  unfold byMarkerAt
  rw [List.drop_eq_nil_of_le h]

/-- C5 counterexample: `extract_song_parts` lowercases both components, so
it does not return the exact-case pair the claim states. -/
theorem parse_anti_hero_not_exact_case :
    extract_song_parts "'Anti-Hero' by Taylor Swift" ≠ ("Anti-Hero", "Taylor Swift") := by
  decide

/-- C5 amended: `extract_song_parts` returns the lowercased pair
`("anti-hero", "taylor swift")` (while the un-lowercased exact pair is
returned by `spotify_service.extract_song_and_artist`); on inputs without
a `' by '` separator, `extract_song_parts` returns the lowercased whole
string with an empty artist (e.g. on `"random text"`), while
`extract_song_and_artist` signals failure with `none`. -/
theorem parse_lowercase_pair_and_no_separator_fallback :
    extract_song_parts "'Anti-Hero' by Taylor Swift" = ("anti-hero", "taylor swift") ∧
    extract_song_and_artist "'Anti-Hero' by Taylor Swift" =
      some ("Anti-Hero", "Taylor Swift") ∧
    extract_song_parts "random text" = ("random text", "") ∧
    extract_song_and_artist "random text" = none ∧
    (∀ s : String,
      (List.range (s.toList.length + 1)).all
        (fun k => !byMarkerAt s.toList k) = true →
      extract_song_parts s = (⟨pyLower s.toList⟩, "")) := by
  refine ⟨by decide, by decide, by decide, by decide, ?_⟩
  intro s hnb
  have hmk : ∀ k, byMarkerAt s.data k = false := by
    intro k
    by_cases hk : k < s.toList.length + 1
    · have := List.all_eq_true.mp hnb k (List.mem_range.mpr hk)
      simpa using this
    · exact byMarkerAt_of_le (by simp only [String.toList] at hk; omega)
  have hq : quotedSongMatch s.toList = none := by
    unfold quotedSongMatch
    apply List.findSome?_eq_none_iff.mpr
    intro i _
    by_cases hiq : isQuote (s.toList.getD i ' ')
    · simp only [hiq, if_true]
      cases hj : (List.range s.toList.length).find?
          (fun j => decide (i < j) && isQuote (s.toList.getD j ' ')) with
      | none => rfl
      | some j => simp [hmk (j + 1)]
    · simp only [ite_eq_right_iff]
      exact fun h => absurd h hiq
  have hp : plainSongMatch s.toList = none := by
    unfold plainSongMatch
    apply List.findSome?_eq_none_iff.mpr
    intro i _
    have hk : plainSongKEnd s.toList i = none := by
      unfold plainSongKEnd
      have hfil : ((List.range (s.toList.length + 1)).filter fun k =>
          decide (i + 1 ≤ k) && byMarkerAt s.toList k &&
            ((List.range (k - i)).all fun t =>
              !isQuote (s.toList.getD (i + t) ' '))) = [] := by
        apply List.filter_eq_nil_iff.mpr
        intro k _
        simp [hmk k]
      rw [hfil]
      rfl
    rw [hk]
  show (match quotedSongMatch s.toList with
    | some (t, a) =>
      ((⟨pyLower (pyStrip t)⟩ : String), (⟨pyLower (pyStrip a)⟩ : String))
    | none =>
      match plainSongMatch s.toList with
      | some (t, a) =>
        ((⟨pyLower (pyStrip t)⟩ : String), (⟨pyLower (pyStrip a)⟩ : String))
      | none => ((⟨pyLower s.toList⟩ : String), "")) =
    ((⟨pyLower s.toList⟩ : String), "")
  rw [hq, hp]

/-- C5 witness: a concrete separator-free input for the universal clause. -/
theorem parse_lowercase_pair_witness :
    extract_song_parts "NO Separator Here" = ("no separator here", "") := by
  have h := parse_lowercase_pair_and_no_separator_fallback.2.2.2.2
    "NO Separator Here" (by decide)
  rw [h]
  decide

theorem chatPipeline_filteredSongs_eq (r : String) (q : Option String)
    (a h : List String) (env : ChatEnv) :
    (chatPipeline r q a h env).filteredSongs = (selectStage r q a h env).avail := by
  simp only [chatPipeline]
  cases hA : (selectStage r q a h env).actual with
  | none => rfl
  | some x =>
    dsimp only
    split_ifs <;> try rfl
    split <;> rfl

/-- C2: for a `specific_song` request the composer applies no memory
filter (the candidate list passes through unchanged), performs no memory
re-validation (`memoryCheck` stays `none`, so no alternate-candidate
substitution can occur), and its entire outcome is independent of the
history — the named track is returned even if it fuzzy-matches history. -/
theorem specific_song_exempt_from_memory (q : Option String)
    (avail hist hist' : List String) (env : ChatEnv) :
    (chatPipeline "specific_song" q avail hist env).filteredSongs = avail ∧
    (chatPipeline "specific_song" q avail hist env).memoryCheck = none ∧
    chatPipeline "specific_song" q avail hist env =
      chatPipeline "specific_song" q avail hist' env := by
  have hsel : ∀ h2 : List String,
      selectStage "specific_song" q avail h2 env =
        selectStage "specific_song" q avail hist' env := by
    intro h2
    unfold selectStage
    simp only [beq_self_eq_true, bne_self_eq_false, Bool.and_false,
      Bool.false_eq_true, if_false, if_true]
  have havail : (selectStage "specific_song" q avail hist env).avail = avail := by
    unfold selectStage
    simp only [beq_self_eq_true, bne_self_eq_false, Bool.and_false,
      Bool.false_eq_true, if_false, if_true]
  refine ⟨by rw [chatPipeline_filteredSongs_eq, havail], ?_, ?_⟩
  · simp only [chatPipeline, bne_self_eq_false, Bool.false_eq_true, if_false]
    cases hA : (selectStage "specific_song" q avail hist env).actual with
    | none => rfl
    | some x => rfl
  · simp only [chatPipeline, bne_self_eq_false, Bool.false_eq_true, if_false]
    rw [hsel hist]

/-- The single matching rule `validate_memory_system` applies: both parsed
titles nonempty and one a substring of the other. -/
def titleOverlapRule (existing new_song : String) : Bool :=
  let en := (extract_song_parts existing).1
  let nn := (extract_song_parts new_song).1
  en != "" && nn != "" &&
    (containsSub nn.toList en.toList || containsSub en.toList nn.toList)

/-- C3 counterexample: the re-validation does not use all of the Memory
Filter's matching rules — a same-artist/shared-word pair (strategy 3 of
the filter) is blocked by the filter yet passes `validate_memory_system`. -/
theorem revalidation_weaker_than_filter_rules :
    isDuplicateOf "'me love' by x" "'love me' by x" = true ∧
    (validate_memory_system ["'love me' by x"] (some "'me love' by x")).valid
      = true := by
  decide

/-- C3 amended: for non-`specific_song` requests the actually-returned
descriptor is re-checked against history using the title-substring rule
only (`titleOverlapRule`, not all three Memory Filter rules); on a
violation the composer walks the next up to five remaining candidates,
looking each up in the catalog and re-validating, accepts the first that
passes, and keeps the original violating track when none does. -/
theorem revalidation_uses_title_rule_and_alternates
    (reqType : String) (q : Option String) (avail hist : List String)
    (env : ChatEnv) (a : String)
    (hT : reqType ≠ "specific_song")
    (hA : (selectStage reqType q avail hist env).actual = some a) :
    (∀ hist2 ns, hist2 ≠ [] → ns ≠ "" →
      ((validate_memory_system hist2 (some ns)).valid = false ↔
        ∃ e ∈ hist2, titleOverlapRule e ns = true)) ∧
    (chatPipeline reqType q avail hist env).memoryCheck =
      some (validate_memory_system hist (some a)) ∧
    ((validate_memory_system hist (some a)).valid = true →
      (chatPipeline reqType q avail hist env).actualSong = some a ∧
      (chatPipeline reqType q avail hist env).spotify =
        (selectStage reqType q avail hist env).spotify) ∧
    ((validate_memory_system hist (some a)).valid = false →
      (∀ sp d,
        (((selectStage reqType q avail hist env).avail.drop 1).take 5).findSome?
            (tryAlternate env hist) = some (sp, d) →
        (chatPipeline reqType q avail hist env).spotify = some sp ∧
        (chatPipeline reqType q avail hist env).actualSong = some d) ∧
      ((((selectStage reqType q avail hist env).avail.drop 1).take 5).findSome?
          (tryAlternate env hist) = none →
        (chatPipeline reqType q avail hist env).actualSong = some a ∧
        (chatPipeline reqType q avail hist env).spotify =
          (selectStage reqType q avail hist env).spotify)) := by
  have hT' : (reqType != "specific_song") = true := by
    simpa [bne_iff_ne] using hT
  constructor
  · intro hist2 ns hne hns
    have hne' : hist2.isEmpty = false := by
      cases hist2 with
      | nil => exact absurd rfl hne
      | cons x l => rfl
    have hns' : (ns != "") = true := by simpa [bne_iff_ne] using hns
    unfold validate_memory_system
    rw [hne']
    simp only [Bool.false_eq_true, if_false, hns', if_true]
    cases hfind : hist2.find? (fun existing =>
        (extract_song_parts existing).1 != "" &&
          (extract_song_parts ns).1 != "" &&
          (containsSub (extract_song_parts ns).1.toList
              (extract_song_parts existing).1.toList ||
            containsSub (extract_song_parts existing).1.toList
              (extract_song_parts ns).1.toList)) with
    | some e =>
      simp only []
      constructor
      · intro _
        exact ⟨e, List.mem_of_find?_eq_some hfind,
          by simpa [titleOverlapRule] using List.find?_some hfind⟩
      · intro _
        trivial
    | none =>
      simp only []
      constructor
      · intro hcon
        exact absurd hcon (by simp)
      · rintro ⟨e, he, hrule⟩
        have := List.find?_eq_none.mp hfind e he
        simp only [titleOverlapRule] at hrule
        exact absurd hrule (by simpa using this)
  · by_cases hv : (validate_memory_system hist (some a)).valid
    · have hout : chatPipeline reqType q avail hist env =
          { filteredSongs := (selectStage reqType q avail hist env).avail,
            songQuery := (selectStage reqType q avail hist env).sq,
            spotify := (selectStage reqType q avail hist env).spotify,
            youtube := (selectStage reqType q avail hist env).youtube,
            actualSong := some a,
            memoryCheck := some (validate_memory_system hist (some a)) } := by
        simp only [chatPipeline]
        rw [hA]
        dsimp only
        rw [hT', hv]
        rfl
      rw [hout]
      exact ⟨rfl, fun _ => ⟨rfl, rfl⟩,
        fun hvf => absurd (hv.symm.trans hvf) (by decide)⟩
    · have hv' : (validate_memory_system hist (some a)).valid = false := by
        simpa using hv
      by_cases hl : 1 < (selectStage reqType q avail hist env).avail.length
      · cases hfs : (((selectStage reqType q avail hist env).avail.drop 1).take 5).findSome?
            (tryAlternate env hist) with
        | some p =>
          obtain ⟨sp, d⟩ := p
          have hout : chatPipeline reqType q avail hist env =
              { filteredSongs := (selectStage reqType q avail hist env).avail,
                songQuery := (selectStage reqType q avail hist env).sq,
                spotify := some sp,
                youtube := (selectStage reqType q avail hist env).youtube,
                actualSong := some d,
                memoryCheck := some (validate_memory_system hist (some a)) } := by
            simp only [chatPipeline]
            rw [hA]
            dsimp only
            rw [hT', hv', if_pos hl, hfs]
            rfl
          rw [hout]
          refine ⟨rfl, fun hvt => absurd (hv'.symm.trans hvt) (by decide),
            fun _ => ⟨?_, ?_⟩⟩
          · intro sp' d' heq
            cases heq
            exact ⟨rfl, rfl⟩
          · intro heq
            cases heq
        | none =>
          have hout : chatPipeline reqType q avail hist env =
              { filteredSongs := (selectStage reqType q avail hist env).avail,
                songQuery := (selectStage reqType q avail hist env).sq,
                spotify := (selectStage reqType q avail hist env).spotify,
                youtube := (selectStage reqType q avail hist env).youtube,
                actualSong := some a,
                memoryCheck := some (validate_memory_system hist (some a)) } := by
            simp only [chatPipeline]
            rw [hA]
            dsimp only
            rw [hT', hv', if_pos hl, hfs]
            rfl
          rw [hout]
          refine ⟨rfl, fun hvt => absurd (hv'.symm.trans hvt) (by decide),
            fun _ => ⟨?_, ?_⟩⟩
          · intro sp' d' heq
            cases heq
          · intro _
            exact ⟨rfl, rfl⟩
      · have hfs : (((selectStage reqType q avail hist env).avail.drop 1).take 5).findSome?
            (tryAlternate env hist) = none := by
          have hnil : ((selectStage reqType q avail hist env).avail.drop 1).take 5 = [] := by
            have hle : (selectStage reqType q avail hist env).avail.length ≤ 1 := by omega
            cases hc : (selectStage reqType q avail hist env).avail with
            | nil => rfl
            | cons x l =>
              rw [hc] at hle
              simp at hle
              rw [hle]
              rfl
          rw [hnil]
          rfl
        have hout : chatPipeline reqType q avail hist env =
            { filteredSongs := (selectStage reqType q avail hist env).avail,
              songQuery := (selectStage reqType q avail hist env).sq,
              spotify := (selectStage reqType q avail hist env).spotify,
              youtube := (selectStage reqType q avail hist env).youtube,
              actualSong := some a,
              memoryCheck := some (validate_memory_system hist (some a)) } := by
          simp only [chatPipeline]
          rw [hA]
          dsimp only
          rw [hT', hv', if_neg hl]
          rfl
        rw [hout]
        refine ⟨rfl, fun hvt => absurd (hv'.symm.trans hvt) (by decide),
          fun _ => ⟨?_, ?_⟩⟩
        · intro sp' d' heq
          rw [hfs] at heq
          cases heq
        · intro _
          exact ⟨rfl, rfl⟩

/-- C3 witness: the extracted track `'Hello' by Adele` violates memory
(`hello` is contained in the remembered `hello world`); the composer
returns the first passing alternate instead. -/
theorem revalidation_alternation_witness :
    (chatPipeline "general" none ["'First Pick' by A", "'Other Song' by B"]
      ["'hello world' by someone"] altEnv).actualSong =
      some "'Other Song' by B" := by
  have h := revalidation_uses_title_rule_and_alternates "general" none
    ["'First Pick' by A", "'Other Song' by B"] ["'hello world' by someone"]
    altEnv "'Hello' by Adele" (by decide) (by decide)
  exact ((h.2.2.2 (by decide)).1 (⟨"Other Song", "B"⟩, 1) "'Other Song' by B"
    (by decide)).2

/-- C6: `"sad bollywood"` classifies as the `sad_bollywood` combination
category — for every artist-lookup collaborator and every continuation of
the classifier chain — so neither the standalone `sad` emotion rule, the
`hindi_bollywood` region rule, nor any earlier rule (profile, creator,
specific-song, artist) decides this message. -/
theorem classify_sad_bollywood_combination (client : ArtistClient)
    (rest : String → Request) :
    analyze_user_request "sad bollywood" client rest =
      mkCategory "sad_bollywood"
        ["sad bollywood songs", "emotional hindi music", "bollywood heartbreak",
          "melancholic hindi", "sad arijit singh", "bollywood breakup songs"]
        "sad Bollywood music" := by
  rfl

/-- C7 counterexample: `"songs by keshi"` matches the explicit artist
template `songs by X`, the captured name passes the filters and is
verified — yet classification returns `specific_song` (`'Songs' by
Keshi`), because the specific-song rule `^(.+?)\s+by\s+(.+?)$` fires
first on any message containing `by`. -/
theorem artist_template_preempted_by_specific_song :
    artistPatternCheck (pyLower "songs by keshi".toList) keshiClient =
      some ⟨"keshi", "kid1", 75, []⟩ ∧
    (analyze_user_request "songs by keshi" keshiClient
        (fun _ => mkCategory "general" [] "")).type ≠ "artist_search" ∧
    (analyze_user_request "songs by keshi" keshiClient
        (fun _ => mkCategory "general" [] "")).type = "specific_song" := by
  refine ⟨by decide, by decide, by decide⟩

/-- C7 amended: when no profile, creator or specific-song rule fires on
the message and one of the explicit artist templates captures a name that
passes the filters and is verified by the artist-existence collaborator,
classification returns `artist_search` carrying the resolved canonical
artist name and id. -/
theorem artist_templates_resolve_artist_search
    (msg : String) (client : ArtistClient) (rest : String → Request)
    (info : SArtist)
    (hprof : profilePatterns.all
      (fun p => !containsSub (pyLower msg.toList) p.toList) = true)
    (hcre : creatorPatterns.all
      (fun p => !containsSub (pyLower msg.toList) p.toList) = true)
    (hspec : specificSongCheck (pyLower msg.toList) = none)
    (hart : artistPatternCheck (pyLower msg.toList) client = some info) :
    analyze_user_request msg client rest = mkArtistSearch info := by
  have h1 : (profilePatterns.any fun p =>
      containsSub (pyLower msg.toList) p.toList) = false := by
    rw [List.any_eq_false]
    intro p hp
    have := List.all_eq_true.mp hprof p hp
    simpa using this
  have h2 : (creatorPatterns.any fun p =>
      containsSub (pyLower msg.toList) p.toList) = false := by
    rw [List.any_eq_false]
    intro p hp
    have := List.all_eq_true.mp hcre p hp
    simpa using this
  simp only [analyze_user_request]
  rw [h1, h2, hspec, hart]
  rfl

/-- C7 witness: `"keshi songs"` (no `by`, so the specific-song rule cannot
fire) resolves through the `X songs` template to `artist_search` for the
verified artist. -/
theorem artist_templates_resolve_artist_search_witness :
    analyze_user_request "keshi songs" keshiClient
        (fun _ => mkCategory "general" [] "") =
      mkArtistSearch ⟨"keshi", "kid1", 75, []⟩ :=
  artist_templates_resolve_artist_search "keshi songs" keshiClient
    (fun _ => mkCategory "general" [] "") ⟨"keshi", "kid1", 75, []⟩
    (by decide) (by decide) (by decide) (by decide)

theorem pickBestArtist_singleton (q : String) (a : SArtist)
    (h : 0 < a.popularity) : pickBestArtist q [a] = some a := by
  have hs : 0 < artistScore q a := by
    unfold artistScore
    dsimp only
    split_ifs <;> omega
  unfold pickBestArtist
  dsimp only [List.foldl]
  rw [if_pos hs]

/-- C8: the artist-existence check returns no artist when the collaborator
is absent or errors, and when the best-scored candidate's popularity is
below the fixed floor of 15; and whenever the check never finds an artist,
classification proceeds exactly as with no collaborator at all — it falls
through to the later rules. -/
theorem popularity_floor_gates_artist_search :
    (∀ q, check_if_artist_exists q none = none) ∧
    (∀ (q : String) (f : String → Option (List SArtist)), f q = none →
      check_if_artist_exists q (some f) = none) ∧
    (∀ (q : String) (f : String → Option (List SArtist)) (artists : List SArtist)
      (best : SArtist), f q = some artists →
      pickBestArtist q artists = some best → best.popularity < 15 →
      check_if_artist_exists q (some f) = none) ∧
    (∀ (msg : String) (client : ArtistClient) (rest : String → Request),
      (∀ q2, check_if_artist_exists q2 client = none) →
      analyze_user_request msg client rest =
        analyze_user_request msg none rest) := by
  refine ⟨fun q => rfl, ?_, ?_, ?_⟩
  · intro q f hf
    simp only [check_if_artist_exists]
    rw [hf]
  · intro q f artists best hf hpick hlt
    simp only [check_if_artist_exists]
    rw [hf]
    dsimp only
    by_cases he : artists.isEmpty
    · rw [if_pos he]
    · rw [if_neg he, hpick]
      dsimp only
      rw [if_neg (show ¬ 15 < best.popularity by omega)]
  · intro msg client rest hnone
    have hap : artistPatternCheck (pyLower msg.toList) client =
        artistPatternCheck (pyLower msg.toList) none := by
      unfold artistPatternCheck
      have hfun : (fun pat =>
          match research pat (pyLower msg.toList) with
          | some (_, _, caps) =>
            match reGroup (pyLower msg.toList) caps 1 with
            | some g1 =>
              let an : String := ⟨pyStrip g1⟩
              if 2 < an.length && !excludedWords.contains an &&
                  !(["songs", "music", "tracks"].any fun w =>
                    containsSub an.toList w.toList) &&
                  (pySplit an.toList).length ≤ 3 then
                check_if_artist_exists an client
              else none
            | none => none
          | none => none) =
          (fun pat =>
          match research pat (pyLower msg.toList) with
          | some (_, _, caps) =>
            match reGroup (pyLower msg.toList) caps 1 with
            | some g1 =>
              let an : String := ⟨pyStrip g1⟩
              if 2 < an.length && !excludedWords.contains an &&
                  !(["songs", "music", "tracks"].any fun w =>
                    containsSub an.toList w.toList) &&
                  (pySplit an.toList).length ≤ 3 then
                check_if_artist_exists an none
              else none
            | none => none
          | none => none) := by
        funext pat
        cases research pat (pyLower msg.toList) with
        | none => rfl
        | some r =>
          obtain ⟨i, j, caps⟩ := r
          dsimp only
          cases reGroup (pyLower msg.toList) caps 1 with
          | none => rfl
          | some g1 =>
            dsimp only
            split_ifs
            · rw [hnone]
              rfl
            · rfl
      rw [hfun]
    have hdyn : (if is_potential_artist_query msg then
        check_if_artist_exists ⟨pyStrip msg.toList⟩ client else none) =
        (if is_potential_artist_query msg then
        check_if_artist_exists ⟨pyStrip msg.toList⟩ none else none) := by
      by_cases hp : is_potential_artist_query msg
      · rw [if_pos hp, if_pos hp, hnone]
        rfl
      · rw [if_neg hp, if_neg hp]
    simp only [analyze_user_request]
    rw [hap, hdyn]

/-- C8 witness: a lone lookup result with popularity 10 (below the floor)
is rejected, and the message is classified exactly as if no artist
existed. -/
theorem popularity_floor_gates_artist_search_witness :
    check_if_artist_exists "lowpop"
      (some fun _ => some [⟨"lowpop", "lp1", 10, []⟩]) = none ∧
    analyze_user_request "lowpop"
        (some fun _ => some [⟨"lowpop", "lp1", 10, []⟩])
        (fun _ => mkCategory "general" [] "") =
      analyze_user_request "lowpop" none (fun _ => mkCategory "general" [] "") := by
  constructor
  · exact popularity_floor_gates_artist_search.2.2.1 "lowpop" _
      [⟨"lowpop", "lp1", 10, []⟩] ⟨"lowpop", "lp1", 10, []⟩ rfl
      (by decide) (by decide)
  · exact popularity_floor_gates_artist_search.2.2.2 "lowpop" _ _
      (fun q2 => popularity_floor_gates_artist_search.2.2.1 q2 _
        [⟨"lowpop", "lp1", 10, []⟩] ⟨"lowpop", "lp1", 10, []⟩ rfl
        (pickBestArtist_singleton q2 _ (by decide)) (by decide))

theorem dropWhile_head_not {p : Char → Bool} :
    ∀ {l : List Char} {c t}, l.dropWhile p = c :: t → p c = false := by
  intro l
  induction l with
  | nil => intro c t h; simp at h
  | cons x xs ih =>
    intro c t h
    rw [List.dropWhile_cons] at h
    split_ifs at h with hx
    · exact ih h
    · cases h
      simpa using hx

theorem pyStrip_not_all_space {l : List Char} (h : pyStrip l ≠ []) :
    (pyStrip l).all pySpace = false := by
  rcases Bool.eq_false_or_eq_true ((pyStrip l).all pySpace) with ht | hf
  swap
  · exact hf
  · exfalso
    unfold pyStrip at h ht
    cases hd : ((l.dropWhile pySpace).reverse).dropWhile pySpace with
    | nil =>
      apply h
      rw [hd]
      rfl
    | cons c t =>
      have hc : pySpace c = false := dropWhile_head_not hd
      have hcmem : c ∈ ((l.dropWhile pySpace).reverse.dropWhile pySpace).reverse := by
        rw [hd]
        simp
      have := List.all_eq_true.mp ht c hcmem
      rw [hc] at this
      exact Bool.false_ne_true this

theorem pySplit_ne_nil : ∀ {l : List Char}, l.all pySpace = false → pySplit l ≠ [] := by
  intro l
  induction l with
  | nil => intro h; simp at h
  | cons c rest ih =>
    intro h
    by_cases hc : pySpace c
    · have hr : rest.all pySpace = false := by
        simp only [List.all_cons, hc, Bool.true_and] at h
        exact h
      simp only [pySplit, hc, if_true]
      exact ih hr
    · simp only [pySplit, hc, Bool.false_eq_true, if_false]
      split
      · simp
      · split
        · simp
        · split_ifs <;> simp

theorem containsSub_nil (big : List Char) : containsSub big [] = true := by
  unfold containsSub
  rw [List.any_eq_true]
  exact ⟨0, by simp, by cases big <;> rfl⟩

theorem wordSet_ne_empty_of_strip {l : List Char} (h : pyStrip l ≠ []) :
    wordSet (pyStrip l) ≠ ∅ := by
  have hs := pyStrip_not_all_space h
  have hsp := pySplit_ne_nil hs
  cases hps : pySplit (pyStrip l) with
  | nil => exact absurd hps hsp
  | cons w ws =>
    intro hcon
    have : (⟨w⟩ : String) ∈ wordSet (pyStrip l) := by
      unfold wordSet
      rw [hps]
      simp
    rw [hcon] at this
    exact absurd this (Finset.not_mem_empty _)

theorem simNormalize_strip (s : String) :
    ∃ m, simNormalize s = pyStrip m :=
  ⟨(pyLower s.toList).filter fun c => isWordChar c || pySpace c, rfl⟩

theorem sim_between_zero_and_one (s1 s2 : String) :
    0 ≤ calculate_string_similarity s1 s2 ∧
      calculate_string_similarity s1 s2 ≤ 1 := by
  unfold calculate_string_similarity
  dsimp only
  split_ifs with h1 h2 h3 h4 h5
  · norm_num
  · norm_num
  · norm_num
  · norm_num
  · constructor
    · positivity
    · rw [div_le_one (by exact_mod_cast h5)]
      exact_mod_cast Finset.card_le_card
        ((Finset.inter_subset_left).trans Finset.subset_union_left)
  · norm_num

theorem sim_eq_claimSimilarity (s1 s2 : String) (h1 : s1 ≠ "") (h2 : s2 ≠ "") :
    calculate_string_similarity s1 s2 = claimSimilarity s1 s2 := by
  have hb1 : (s1 == "") = false := beq_eq_false_iff_ne.mpr h1
  have hb2 : (s2 == "") = false := beq_eq_false_iff_ne.mpr h2
  unfold calculate_string_similarity claimSimilarity
  dsimp only
  rw [hb1, hb2]
  simp only [Bool.or_self, Bool.false_eq_true, if_false]
  by_cases heq : (simNormalize s1 == simNormalize s2) = true
  · rw [heq]
    rfl
  · rw [Bool.not_eq_true] at heq
    rw [heq]
    simp only [Bool.false_eq_true, if_false]
    by_cases hcont : (containsSub (simNormalize s2) (simNormalize s1) ||
        containsSub (simNormalize s1) (simNormalize s2)) = true
    · rw [hcont]
      rfl
    · rw [Bool.not_eq_true] at hcont
      rw [hcont]
      simp only [Bool.false_eq_true, if_false]
      have hn1 : simNormalize s1 ≠ [] := by
        intro hnil
        have := containsSub_nil (simNormalize s2)
        rw [← hnil] at this
        rw [this] at hcont
        simp at hcont
      have hn2 : simNormalize s2 ≠ [] := by
        intro hnil
        have := containsSub_nil (simNormalize s1)
        rw [← hnil] at this
        rw [this] at hcont
        simp at hcont
      obtain ⟨m1, hm1⟩ := simNormalize_strip s1
      obtain ⟨m2, hm2⟩ := simNormalize_strip s2
      have hw1 : wordSet (simNormalize s1) ≠ ∅ := by
        rw [hm1] at hn1 ⊢
        exact wordSet_ne_empty_of_strip hn1
      have hw2 : wordSet (simNormalize s2) ≠ ∅ := by
        rw [hm2] at hn2 ⊢
        exact wordSet_ne_empty_of_strip hn2
      rw [if_neg (by push_neg; exact ⟨hw1, hw2⟩)]
      have hu : 0 < (wordSet (simNormalize s1) ∪ wordSet (simNormalize s2)).card := by
        rcases Finset.nonempty_of_ne_empty hw1 with ⟨x, hx⟩
        exact Finset.card_pos.mpr ⟨x, Finset.mem_union_left _ hx⟩
      rw [if_pos hu]
      rfl

/-- C9 counterexample: on an empty raw input the source returns `0.0`
before any substring test, while the claim's description (`0.9` for
substring containment, and `""` is contained in every string) gives `0.9`. -/
theorem empty_string_similarity_mismatch :
    calculate_string_similarity "" "x" = 0 ∧ claimSimilarity "" "x" = 9/10 := by
  constructor
  · decide
  · unfold claimSimilarity
    dsimp only
    rw [if_neg (by decide), if_pos (by decide)]

/-- C9 amended: the match score is `0.6 · titleSim + 0.4 · artistSim`; for
nonempty raw inputs the similarity is exactly the claimed
equality/containment/Jaccard cascade (for empty raw inputs the source
short-circuits to `0.0`); similarities and scores always lie in `[0, 1]`;
`search_spotify_song` only returns a track whose best score is at least
`0.6`; and once strategy 1 scores at least `0.8`, strategy 2's results are
never consulted. -/
theorem match_score_and_search_thresholds :
    (∀ ts ta rs ra, calculate_match_score ts ta rs ra =
      calculate_string_similarity ts rs * (3/5) +
        calculate_string_similarity ta ra * (2/5)) ∧
    (∀ s1 s2, s1 ≠ "" → s2 ≠ "" →
      calculate_string_similarity s1 s2 = claimSimilarity s1 s2) ∧
    (∀ s1 s2, 0 ≤ calculate_string_similarity s1 s2 ∧
      calculate_string_similarity s1 s2 ≤ 1) ∧
    (∀ ts ta rs ra, 0 ≤ calculate_match_score ts ta rs ra ∧
      calculate_match_score ts ta rs ra ≤ 1) ∧
    (∀ q r1 r2 t sc, search_spotify_song q r1 r2 = some (t, sc) → 3/5 ≤ sc) ∧
    (∀ q sn an r1 r2 r2', extract_song_and_artist q = some (sn, an) →
      4/5 ≤ (scoreTracks sn an (r1.getD []) (none, 0)).2 →
      search_spotify_song q r1 r2 = search_spotify_song q r1 r2') := by
  refine ⟨fun ts ta rs ra => rfl, sim_eq_claimSimilarity,
    sim_between_zero_and_one, ?_, ?_, ?_⟩
  · intro ts ta rs ra
    obtain ⟨ha, hb⟩ := sim_between_zero_and_one ts rs
    obtain ⟨hc, hd⟩ := sim_between_zero_and_one ta ra
    unfold calculate_match_score
    constructor <;> nlinarith
  · intro q r1 r2 t sc h
    unfold search_spotify_song at h
    cases hp : extract_song_and_artist q with
    | none => rw [hp] at h; cases h
    | some p =>
      obtain ⟨sn, an⟩ := p
      rw [hp] at h
      dsimp only at h
      by_cases hg : (sn == "" || an == "") = true
      · rw [if_pos hg] at h
        cases h
      · rw [if_neg hg] at h
        by_cases hle : 4/5 ≤ (scoreTracks sn an (r1.getD []) (none, 0)).2
        · rw [if_pos hle] at h
          generalize scoreTracks sn an (r1.getD []) (none, 0) = pr at h
          obtain ⟨ot, s'⟩ := pr
          cases ot with
          | none =>
            dsimp only at h
            cases h
          | some t' =>
            dsimp only at h
            split_ifs at h with hth
            cases h
            exact hth
        · rw [if_neg hle] at h
          generalize scoreTracks sn an (r2.getD [])
            (scoreTracks sn an (r1.getD []) (none, 0)) = pr at h
          obtain ⟨ot, s'⟩ := pr
          cases ot with
          | none =>
            dsimp only at h
            cases h
          | some t' =>
            dsimp only at h
            split_ifs at h with hth
            cases h
            exact hth
  · intro q sn an r1 r2 r2' hp he
    unfold search_spotify_song
    rw [hp]
    dsimp only
    by_cases hg : (sn == "" || an == "") = true
    · rw [if_pos hg, if_pos hg]
    · rw [if_neg hg, if_neg hg, if_pos he, if_pos he]

/-- C9 witness: a concrete exact-match search scores `1`, is returned
(so its score clears the `0.6` floor), and its strategy-1 score of `1`
(above `0.8`) makes the result independent of strategy 2. -/
theorem match_score_and_search_thresholds_witness :
    calculate_string_similarity "ab" "ab" = claimSimilarity "ab" "ab" ∧
    ((3 : ℚ)/5 ≤ 1) ∧
    search_spotify_song "'Anti-Hero' by Taylor Swift"
        (some [⟨"Anti-Hero", "Taylor Swift"⟩]) (some [⟨"Wrong", "Band"⟩]) =
      search_spotify_song "'Anti-Hero' by Taylor Swift"
        (some [⟨"Anti-Hero", "Taylor Swift"⟩]) none := by
  have hsim1 : calculate_string_similarity "Anti-Hero" "Anti-Hero" = 1 := by
    unfold calculate_string_similarity
    dsimp only
    rw [if_neg (by decide), if_pos (by decide)]
  have hsim2 : calculate_string_similarity "Taylor Swift" "Taylor Swift" = 1 := by
    unfold calculate_string_similarity
    dsimp only
    rw [if_neg (by decide), if_pos (by decide)]
  have hscore : calculate_match_score "Anti-Hero" "Taylor Swift"
      "Anti-Hero" "Taylor Swift" = 1 := by
    unfold calculate_match_score
    rw [hsim1, hsim2]
    norm_num
  have hb1 : scoreTracks "Anti-Hero" "Taylor Swift"
      [⟨"Anti-Hero", "Taylor Swift"⟩] (none, 0) =
      (some ⟨"Anti-Hero", "Taylor Swift"⟩, 1) := by
    have h0 : scoreTracks "Anti-Hero" "Taylor Swift"
        [⟨"Anti-Hero", "Taylor Swift"⟩] (none, 0) =
        (if (0 : ℚ) < calculate_match_score "Anti-Hero" "Taylor Swift"
            "Anti-Hero" "Taylor Swift" then
          ((some ⟨"Anti-Hero", "Taylor Swift"⟩ : Option STrack),
            calculate_match_score "Anti-Hero" "Taylor Swift"
              "Anti-Hero" "Taylor Swift")
        else (none, 0)) := rfl
    rw [h0, hscore, if_pos (by norm_num : (0 : ℚ) < 1)]
  refine ⟨match_score_and_search_thresholds.2.1 "ab" "ab" (by decide) (by decide),
    ?_, ?_⟩
  · have hsearch : search_spotify_song "'Anti-Hero' by Taylor Swift"
        (some [⟨"Anti-Hero", "Taylor Swift"⟩]) none =
        some (⟨"Anti-Hero", "Taylor Swift"⟩, 1) := by
      unfold search_spotify_song
      rw [show extract_song_and_artist "'Anti-Hero' by Taylor Swift" =
        some ("Anti-Hero", "Taylor Swift") from by decide]
      dsimp only
      rw [if_neg (by decide :
        ¬ (("Anti-Hero" == "" || "Taylor Swift" == "") = true))]
      rw [show ((some [(⟨"Anti-Hero", "Taylor Swift"⟩ : STrack)]).getD
        ([] : List STrack)) = [⟨"Anti-Hero", "Taylor Swift"⟩] from rfl]
      rw [hb1]
      dsimp only
      rw [if_pos (by norm_num : (4 : ℚ)/5 ≤ 1)]
      dsimp only
      rw [if_pos (by norm_num : (3 : ℚ)/5 ≤ 1)]
    exact match_score_and_search_thresholds.2.2.2.2.1 _ _ _ _ _ hsearch
  · exact match_score_and_search_thresholds.2.2.2.2.2 _ "Anti-Hero"
      "Taylor Swift" _ _ _ (by decide)
      (by
        show (4 : ℚ)/5 ≤ (scoreTracks "Anti-Hero" "Taylor Swift"
          [⟨"Anti-Hero", "Taylor Swift"⟩] (none, 0)).2
        rw [hb1]
        norm_num)

theorem find?_range'_eq_some {p : Nat → Bool} :
    ∀ (k s m : Nat), s ≤ m → m < s + k → p m = true →
      (∀ j, s ≤ j → j < m → p j = false) →
      (List.range' s k).find? p = some m := by
  intro k
  induction k with
  | zero => intro s m h1 h2 _ _; omega
  | succ k ih =>
    intro s m h1 h2 hp hlt
    rw [List.range'_succ, List.find?_cons]
    by_cases hsm : s = m
    · subst hsm
      rw [hp]
    · have hps : p s = false := hlt s le_rfl (by omega)
      rw [hps]
      exact ih (s + 1) m (by omega) (by omega) hp fun j ha hb => hlt j (by omega) hb

theorem find?_range_eq_some {p : Nat → Bool} {n m : Nat} (h2 : m < n)
    (hp : p m = true) (hlt : ∀ j, j < m → p j = false) :
    (List.range n).find? p = some m := by
  rw [List.range_eq_range']
  exact find?_range'_eq_some n 0 m (Nat.zero_le m) (by omega) hp
    fun j _ hb => hlt j hb

theorem takeWhile_of_all {p : Char → Bool} :
    ∀ {l : List Char}, l.all p = true → l.takeWhile p = l := by
  intro l
  induction l with
  | nil => intro _; rfl
  | cons x xs ih =>
    intro h
    rw [List.all_cons, Bool.and_eq_true] at h
    rw [List.takeWhile_cons_of_pos h.1, ih h.2]

theorem getD_mem_of_lt {l : List Char} {n : Nat} {d : Char}
    (h : n < l.length) : l.getD n d ∈ l := by
  induction l generalizing n with
  | nil => simp at h
  | cons x xs ih =>
    cases n with
    | zero => simp
    | succ n =>
      rw [List.getD_cons_succ]
      exact List.mem_cons_of_mem _ (ih (by simpa using h))

/-- Re-parsing a well-formed descriptor `'t' by a` (title nonempty and
quote-free, artist nonempty and newline-free) recovers the two components:
the quoted song pattern matches at the very start. -/
theorem quotedSongMatch_roundtrip (lt la : List Char)
    (htne : lt ≠ []) (hane : la ≠ [])
    (htq : (lt.all fun c => !isQuote c) = true)
    (hanl : (la.all fun c => c != '\n') = true) :
    quotedSongMatch ('\'' :: (lt ++ '\'' :: ' ' :: 'b' :: 'y' :: ' ' :: la)) =
      some (lt, la) := by
  set s := '\'' :: (lt ++ '\'' :: ' ' :: 'b' :: 'y' :: ' ' :: la) with hsdef
  have hltpos : 0 < lt.length := List.length_pos.mpr htne
  have hlen : s.length = lt.length + la.length + 6 := by
    rw [hsdef]
    simp
    omega
  have hbm : byMarkerAt s (lt.length + 2) = true := by
    have hs1 : s = ('\'' :: lt ++ ['\'']) ++ (' ' :: 'b' :: 'y' :: ' ' :: la) := by
      rw [hsdef]
      simp
    unfold byMarkerAt
    rw [hs1, show lt.length + 2 = ('\'' :: lt ++ ['\'']).length by simp,
      List.drop_left]
    cases la with
    | nil => exact absurd rfl hane
    | cons c la' =>
      have hc : (c != '\n') = true := by
        rw [List.all_cons, Bool.and_eq_true] at hanl
        exact hanl.1
      change ('b'.toLower == 'b' && 'y'.toLower == 'y' && (c != '\n')) = true
      rw [hc]
      decide
  have hgq : s.getD (lt.length + 1) ' ' = '\'' := by
    rw [hsdef, List.getD_cons_succ,
      List.getD_append_right lt _ ' ' lt.length le_rfl]
    simp
  have hfind : (List.range s.length).find?
      (fun j => decide (0 < j) && isQuote (s.getD j ' ')) =
      some (lt.length + 1) := by
    apply find?_range_eq_some
    · omega
    · rw [hgq]
      simp [isQuote]
    · intro j hj
      cases j with
      | zero => rfl
      | succ j' =>
        have hj' : j' < lt.length := by omega
        have hgd : s.getD (j' + 1) ' ' = lt.getD j' ' ' := by
          rw [hsdef, List.getD_cons_succ, List.getD_append lt _ ' ' j' hj']
        have hmem : lt.getD j' ' ' ∈ lt := getD_mem_of_lt hj'
        have := List.all_eq_true.mp htq _ hmem
        rw [hgd]
        simp only [Bool.and_eq_false_iff]
        right
        simpa using this
  have hslen1 : s.length = (lt.length + la.length + 5) + 1 := by omega
  unfold quotedSongMatch
  rw [hslen1, List.range_succ_eq_map, List.findSome?_cons]
  have hq0 : isQuote (s.getD 0 ' ') = true := by
    rw [hsdef]
    rfl
  rw [hq0]
  simp only [if_true]
  rw [hslen1, List.range_succ_eq_map] at hfind
  rw [hfind]
  dsimp only
  have hcond : (decide (0 + 2 ≤ lt.length + 1) &&
      byMarkerAt s (lt.length + 1 + 1)) = true := by
    rw [Bool.and_eq_true]
    constructor
    · simp
      omega
    · exact hbm
  rw [if_pos hcond]
  have htitle : (s.drop (0 + 1)).take (lt.length + 1 - 0 - 1) = lt := by
    rw [hsdef]
    simp only [Nat.zero_add, List.drop_succ_cons, List.drop_zero]
    rw [show lt.length + 1 - 0 - 1 = lt.length by omega]
    exact List.take_left lt _
  have hartist : artistGroupFrom s (lt.length + 2) = la := by
    unfold artistGroupFrom
    have hs2 : s = ('\'' :: lt ++ ['\'', ' ', 'b', 'y', ' ']) ++ la := by
      rw [hsdef]
      simp
    rw [hs2, show lt.length + 2 + 4 = ('\'' :: lt ++ ['\'', ' ', 'b', 'y', ' ']).length by simp,
      List.drop_left]
    exact takeWhile_of_all hanl
  rw [htitle, hartist]

/-- C10 counterexample: the unquoted fallback pattern can capture a title
containing a quote character; the extraction is well-formed, but
re-parsing splits at the apostrophe and does not recover the pair. -/
theorem extraction_roundtrip_fails_on_unquoted_title :
    extract_song_from_response "Try don't stop by queen" =
      some "'don't stop' by queen" ∧
    extract_song_parts "'don't stop' by queen" = ("t stop", "queen") ∧
    (("t stop", "queen") : String × String) ≠ ("don't stop", "queen") := by
  refine ⟨by decide, by decide, by decide⟩

/-- C10 amended: every non-`None` extraction has the exact shape
`'<title>' by <artist>` with both components nonempty; and every such
descriptor whose title is quote-free and whose artist is newline-free
(true of the quoted extraction patterns, but not of the unquoted `Try`
fallback) re-parses under `extract_song_parts` into the same pair,
stripped and lowercased. -/
theorem extraction_shape_and_conditional_roundtrip :
    (∀ ai r, extract_song_from_response ai = some r →
      ∃ t a : String, r = "'" ++ t ++ "' by " ++ a ∧ t ≠ "" ∧ a ≠ "") ∧
    (∀ t a : String, t.toList ≠ [] → a.toList ≠ [] →
      (t.toList.all fun c => !isQuote c) = true →
      (a.toList.all fun c => c != '\n') = true →
      extract_song_parts ("'" ++ t ++ "' by " ++ a) =
        (⟨pyLower (pyStrip t.toList)⟩, ⟨pyLower (pyStrip a.toList)⟩)) := by
  constructor
  · intro ai r h
    unfold extract_song_from_response at h
    obtain ⟨pat, hmem, hpat⟩ := List.exists_of_findSome?_eq_some h
    dsimp only at hpat
    cases hre : research pat ai.toList with
    | none =>
      rw [hre] at hpat
      simp at hpat
    | some trip =>
      obtain ⟨i, j, caps⟩ := trip
      rw [hre] at hpat
      dsimp only at hpat
      cases hg1 : reGroup ai.toList caps 1 with
      | none =>
        rw [hg1] at hpat
        simp at hpat
      | some g1 =>
        cases hg2 : reGroup ai.toList caps 2 with
        | none =>
          rw [hg1, hg2] at hpat
          simp at hpat
        | some g2 =>
          rw [hg1, hg2] at hpat
          dsimp only at hpat
          split_ifs at hpat with hguard
          rw [Bool.and_eq_true] at hguard
          cases hpat
          refine ⟨⟨pyStrip g1⟩, ⟨cleanArtistCapture g2⟩, rfl, ?_, ?_⟩
          · intro hcon
            rw [show ("" : String) = ⟨[]⟩ from rfl] at hcon
            injection hcon with hl
            have hne := hguard.1
            rw [hl] at hne
            exact absurd hne (by decide)
          · intro hcon
            rw [show ("" : String) = ⟨[]⟩ from rfl] at hcon
            injection hcon with hl
            have hne := hguard.2
            rw [hl] at hne
            exact absurd hne (by decide)
  · intro t a htne hane htq hanl
    obtain ⟨lt⟩ := t
    obtain ⟨la⟩ := a
    have hs : ("'" ++ (⟨lt⟩ : String) ++ "' by " ++ (⟨la⟩ : String)).toList =
        '\'' :: (lt ++ '\'' :: ' ' :: 'b' :: 'y' :: ' ' :: la) := by
      show (((("'" : String).data ++ lt) ++ ("' by " : String).data) ++ la) = _
      simp
    unfold extract_song_parts
    rw [hs]
    dsimp only
    rw [quotedSongMatch_roundtrip lt la htne hane htq hanl]
    rfl

/-- C10 witness: a quoted-pattern extraction re-parses to the same pair,
lowercased. -/
theorem extraction_shape_and_conditional_roundtrip_witness :
    (∃ t a : String, "'Anti-Hero' by Taylor Swift" = "'" ++ t ++ "' by " ++ a ∧
      t ≠ "" ∧ a ≠ "") ∧
    extract_song_parts "'Anti-Hero' by Taylor Swift" =
      ("anti-hero", "taylor swift") := by
  constructor
  · exact extraction_shape_and_conditional_roundtrip.1
      "Try 'Anti-Hero' by Taylor Swift! 🎵" "'Anti-Hero' by Taylor Swift"
      (by decide)
  · have h := extraction_shape_and_conditional_roundtrip.2 "Anti-Hero"
      "Taylor Swift" (by decide) (by decide) (by decide) (by decide)
    rw [show "'" ++ "Anti-Hero" ++ "' by " ++ "Taylor Swift" =
      "'Anti-Hero' by Taylor Swift" from by decide] at h
    rw [h]
    decide

end Yain
